import Mathlib

/-!
Shallow embedding of the credential & access-control subsystem of the
medical-transcription repository, and proofs of its specified properties.

Embedded source files:
  * src/api/models/user.py      (User.validate_password, set_password, check_password)
  * src/api/security.py         (create_access_token, token_required)
  * src/api/utils/redis_fix.py  (get_redis_client)
  * src/api/__init__.py         (rate-limit backend selection inside create_app)
  * src/api/models/__init__.py / ModelRegistry (registration guard)

External libraries (bcrypt, PyJWT, redis) are modelled symbolically at their
contract level: hashing and signing are injective constructors whose only
observable behaviour is the equality check the library exposes, and network
probes are an explicit outcome parameter.
-/

namespace MedTrans

/-! ## Password policy — src/api/models/user.py, User.validate_password -/

/-- `re.search(r'[A-Z]', password)` viewed over the string's characters. -/
def hasUpper (p : String) : Bool := p.data.any fun c => 'A' ≤ c && c ≤ 'Z'

/-- `re.search(r'[a-z]', password)`. -/
def hasLower (p : String) : Bool := p.data.any fun c => 'a' ≤ c && c ≤ 'z'

/-- `re.search(r'[0-9]', password)`. -/
def hasDigit (p : String) : Bool := p.data.any fun c => '0' ≤ c && c ≤ '9'

/-- `re.search(r'[^A-Za-z0-9]', password)`: some character outside A-Z, a-z, 0-9. -/
def hasSpecial (p : String) : Bool :=
  p.data.any fun c =>
    !(('A' ≤ c && c ≤ 'Z') || ('a' ≤ c && c ≤ 'z') || ('0' ≤ c && c ≤ '9'))

/-- The `missing` list built by `validate_password`, in source order. -/
def missingClasses (p : String) : List String :=
  (if !hasUpper p then ["uppercase letter"] else []) ++
  (if !hasLower p then ["lowercase letter"] else []) ++
  (if !hasDigit p then ["digit"] else []) ++
  (if !hasSpecial p then ["special character"] else [])

/-- The fixed `common_passwords` denylist from `validate_password`. -/
def common_passwords : List String :=
  ["password123", "qwerty123", "123456789", "admin123", "welcome1",
   "letmein123", "123qwerty", "adminadmin", "P@ssword1", "Password123"]

/-- `str.lower()` restricted to ASCII case mapping, character by character
(the denylist and every string the subsystem compares are ASCII). -/
def pyLower (s : String) : String := ⟨s.data.map Char.toLower⟩

/-- `User.validate_password(password) -> (is_valid, message)`, translated
branch for branch from src/api/models/user.py. -/
def validate_password (password : String) : Bool × String :=
  if password = "" then
    (false, "Password cannot be empty")
  else if password.length < 12 then
    (false, "Password must be at least 12 characters long")
  else if missingClasses password ≠ [] then
    (false, "Password must contain at least one " ++
      String.intercalate ", " (missingClasses password))
  else if common_passwords.contains (pyLower password) then
    (false, "Password is too common and easily guessable")
  else
    (true, "Password meets requirements")

/-! ## bcrypt, modelled at its contract level

`bcrypt.hashpw(password, gensalt(rounds))` is modelled as an injective
constructor recording the cost factor, the salt entropy and (symbolically,
standing for the one-way digest) the password; the only observation the
source makes of a hash is `bcrypt.checkpw`, which re-derives the hash from
the candidate password and the stored salt parameters and compares.
`checkpw` raises (`Except.error`) on a structurally malformed stored hash,
which the model signals by a version tag other than "$2b$". -/

structure BcryptHash where
  version : String
  cost : Nat
  salt : String
  digest : String
deriving DecidableEq, Repr

/-- `bcrypt.hashpw(password, salt)` with `salt = gensalt(rounds)` over
entropy `entropy`. -/
def bcrypt_hashpw (password : String) (rounds : Nat) (entropy : String) : BcryptHash :=
  ⟨"$2b$", rounds, entropy, password⟩

/-- `bcrypt.checkpw(password, hashed)`: error on a malformed stored hash,
otherwise recompute with the stored parameters and compare. -/
def bcrypt_checkpw (password : String) (h : BcryptHash) : Except String Bool :=
  if h.version = "$2b$" then
    .ok (bcrypt_hashpw password h.cost h.salt == h)
  else
    .error "Invalid salt"

/-- The modular-crypt string form of a stored hash, as it sits in the
`hashed_password` column: version, cost, salt and digest joined by the
usual separators. -/
def BcryptHash.render (h : BcryptHash) : String :=
  h.version ++ toString h.cost ++ "$" ++ h.salt ++ "$" ++ h.digest

/-! ## User record — src/api/models/user.py -/

structure User where
  username : String
  email : String
  hashed_password : Option BcryptHash
  is_active : Bool
  password_reset_token : Option String
  password_reset_expires : Option Nat
  password_changed_at : Option Nat
  login_attempts : Nat
  last_login_at : Option Nat
deriving DecidableEq, Repr

/-- `User.set_password(self, password)`: validate first, raising
`ValueError(message)` (second component `some message`) before any field is
touched; on success store the cost-12 salted hash, stamp
`password_changed_at`, and clear the pending reset token and its expiry.
`entropy` stands for the randomness drawn by `bcrypt.gensalt(rounds=12)`
and `now` for `datetime.utcnow()`. -/
def set_password (u : User) (password : String) (entropy : String) (now : Nat) :
    User × Option String :=
  let v := validate_password password
  if !v.1 then
    (u, some v.2)
  else
    ({ u with
        hashed_password := some (bcrypt_hashpw password 12 entropy),
        password_changed_at := some now,
        password_reset_token := none,
        password_reset_expires := none }, none)

/-- `User.check_password(self, password)`: false on empty input or absent
stored hash; any error raised by `bcrypt.checkpw` is caught and also maps
to false; otherwise the comparison result is returned. Total by
construction — the one fallible call is wrapped. -/
def check_password (u : User) (password : String) : Bool :=
  if password = "" then false
  else
    match u.hashed_password with
    | none => false
    | some h =>
      match bcrypt_checkpw password h with
      | .ok b => b
      | .error _ => false

/-! ## Lemmas about the password policy -/

theorem pyLower_length (s : String) : (pyLower s).length = s.length := by
  cases s with
  | mk data => simp [pyLower, String.length]

theorem common_passwords_short : ∀ e ∈ common_passwords, e.length ≤ 11 := by
  decide

theorem missingClasses_ne_nil_iff (p : String) :
    missingClasses p ≠ [] ↔
      (hasUpper p = false ∨ hasLower p = false ∨ hasDigit p = false ∨
        hasSpecial p = false) := by
  cases h1 : hasUpper p <;> cases h2 : hasLower p <;> cases h3 : hasDigit p <;>
    cases h4 : hasSpecial p <;> simp [missingClasses, h1, h2, h3, h4]

/-- C2: `validate_password` returns not-ok exactly when the password is
empty, shorter than 12 characters, missing one of the four character
classes, or case-insensitively equal to a denylist entry; and when a
character class is missing, the returned reason names exactly the missing
classes. -/
theorem validate_password_not_ok_iff :
    (∀ p : String, (validate_password p).1 = false ↔
      (p = "" ∨ p.length < 12 ∨ hasUpper p = false ∨ hasLower p = false ∨
        hasDigit p = false ∨ hasSpecial p = false ∨
        ∃ e ∈ common_passwords, pyLower p = pyLower e)) ∧
    (∀ p : String, missingClasses p ≠ [] → p ≠ "" → 12 ≤ p.length →
      (validate_password p).2 =
        "Password must contain at least one " ++
          String.intercalate ", " (missingClasses p) ∧
      ("uppercase letter" ∈ missingClasses p ↔ hasUpper p = false) ∧
      ("lowercase letter" ∈ missingClasses p ↔ hasLower p = false) ∧
      ("digit" ∈ missingClasses p ↔ hasDigit p = false) ∧
      ("special character" ∈ missingClasses p ↔ hasSpecial p = false)) := by
  constructor
  · intro p
    unfold validate_password
    split_ifs with h1 h2 h3 h4
    · simpa using Or.inl h1
    · simpa using Or.inr (Or.inl h2)
    · simpa using Or.inr (Or.inr (((missingClasses_ne_nil_iff p).1 h3).imp
        id (fun h => h.imp id (fun h => h.imp id Or.inl))))
    · have hmem : pyLower p ∈ common_passwords := by simpa using h4
      have hlen : (pyLower p).length ≤ 11 := common_passwords_short _ hmem
      rw [pyLower_length] at hlen
      omega
    · simp only [show ¬(false = true) from by simp, false_iff]
      push_neg at h3
      have hClasses := (missingClasses_ne_nil_iff p).not.1 (by simp [h3])
      push_neg at hClasses
      rintro (rfl | h | h | h | h | h | ⟨e, he, hl⟩)
      · exact h1 rfl
      · exact h2 h
      · simp [hClasses.1] at h
      · simp [hClasses.2.1] at h
      · simp [hClasses.2.2.1] at h
      · simp [hClasses.2.2.2] at h
      · have hle : e.length ≤ 11 := common_passwords_short _ he
        have : (pyLower p).length = (pyLower e).length := by rw [hl]
        rw [pyLower_length, pyLower_length] at this
        omega
  · intro p h3 h1 h2
    refine ⟨?_, ?_, ?_, ?_, ?_⟩
    · unfold validate_password
      rw [if_neg h1, if_neg (by omega), if_pos h3]
    all_goals
      cases hu : hasUpper p <;> cases hlo : hasLower p <;> cases hd : hasDigit p <;>
        cases hs : hasSpecial p <;> simp [missingClasses, hu, hlo, hd, hs]

/-- Witness for C2's hypotheses at the all-lowercase password
"abcdefghijklm" (13 characters, missing three classes). -/
theorem validate_password_not_ok_iff_witness :
    (validate_password "abcdefghijklm").2 =
      "Password must contain at least one uppercase letter, digit, special character" ∧
    ("uppercase letter" ∈ missingClasses "abcdefghijklm" ↔
      hasUpper "abcdefghijklm" = false) := by
  have h := validate_password_not_ok_iff.2 "abcdefghijklm"
    (by decide) (by decide) (by decide)
  refine ⟨?_, h.2.1⟩
  rw [h.1]
  rfl

/-! ## Lemmas about password storage and checking -/

theorem string_length_append (a b : String) : (a ++ b).length = a.length + b.length := by
  cases a with
  | mk la =>
    cases b with
    | mk lb =>
      show (String.mk (la ++ lb)).length = (String.mk la).length + (String.mk lb).length
      simp [String.length]

theorem validate_password_ok_ne_empty (p : String)
    (h : (validate_password p).1 = true) : p ≠ "" := by
  intro hp
  simp [validate_password, hp] at h

theorem bcrypt_render_ne_plaintext (password : String) (rounds : Nat) (entropy : String) :
    (bcrypt_hashpw password rounds entropy).render ≠ password := by
  intro h
  have hl := congrArg String.length h
  simp only [bcrypt_hashpw, BcryptHash.render, string_length_append] at hl
  have h4 : ("$2b$" : String).length = 4 := rfl
  have h1 : ("$" : String).length = 1 := rfl
  rw [h4, h1] at hl
  omega

/-- C3: after a successful `set_password`, `check_password` accepts exactly
the password that was set and rejects every different password. -/
theorem set_password_check_password_roundtrip (u : User)
    (password other entropy : String) (now : Nat)
    (hvalid : (validate_password password).1 = true) (hne : other ≠ password) :
    (set_password u password entropy now).2 = none ∧
    check_password (set_password u password entropy now).1 password = true ∧
    check_password (set_password u password entropy now).1 other = false := by
  have hp : password ≠ "" := validate_password_ok_ne_empty password hvalid
  by_cases ho : other = ""
  · simp [set_password, check_password, bcrypt_checkpw, bcrypt_hashpw, hvalid, hp, ho]
  · simp [set_password, check_password, bcrypt_checkpw, bcrypt_hashpw, hvalid, hp, ho, hne]

/-- Witness for C3 at a concrete record and passwords. -/
theorem set_password_check_password_roundtrip_witness :
    (set_password ⟨"alice", "a@b.c", none, true, none, none, none, 0, none⟩
        "CorrectHorse9!Battery" "saltsaltsaltsaltsalts." 1000).2 = none ∧
    check_password (set_password ⟨"alice", "a@b.c", none, true, none, none, none, 0, none⟩
        "CorrectHorse9!Battery" "saltsaltsaltsaltsalts." 1000).1 "CorrectHorse9!Battery" = true ∧
    check_password (set_password ⟨"alice", "a@b.c", none, true, none, none, none, 0, none⟩
        "CorrectHorse9!Battery" "saltsaltsaltsaltsalts." 1000).1 "WrongHorse9!Battery" = false :=
  set_password_check_password_roundtrip _ _ _ _ _ (by decide) (by decide)

/-- C7: when validation rejects the password, `set_password` raises the
validation message and the record is returned untouched, every field
included. -/
theorem set_password_rejects_without_mutation (u : User)
    (password entropy : String) (now : Nat)
    (hinvalid : (validate_password password).1 = false) :
    set_password u password entropy now = (u, some (validate_password password).2) := by
  simp [set_password, hinvalid]

/-- Witness for C7 at the too-short password "Weak1!". -/
theorem set_password_rejects_without_mutation_witness :
    set_password ⟨"alice", "a@b.c", none, true, some "tok", some 5, some 7, 2, none⟩
        "Weak1!" "salt" 42 =
      (⟨"alice", "a@b.c", none, true, some "tok", some 5, some 7, 2, none⟩,
        some "Password must be at least 12 characters long") := by
  have h := set_password_rejects_without_mutation
    ⟨"alice", "a@b.c", none, true, some "tok", some 5, some 7, 2, none⟩
    "Weak1!" "salt" 42 (by decide)
  rw [h]
  rfl

/-- C8: a successful `set_password` stores the cost-12 salted hash (whose
string form is never the plaintext password), stamps the password-changed
timestamp, and clears the pending reset token and its expiry. -/
theorem set_password_success_postcondition (u : User)
    (password entropy : String) (now : Nat)
    (hvalid : (validate_password password).1 = true) :
    (set_password u password entropy now).2 = none ∧
    (set_password u password entropy now).1.hashed_password =
      some (bcrypt_hashpw password 12 entropy) ∧
    (bcrypt_hashpw password 12 entropy).cost = 12 ∧
    (bcrypt_hashpw password 12 entropy).render ≠ password ∧
    (set_password u password entropy now).1.password_changed_at = some now ∧
    (set_password u password entropy now).1.password_reset_token = none ∧
    (set_password u password entropy now).1.password_reset_expires = none := by
  refine ⟨?_, ?_, rfl, bcrypt_render_ne_plaintext password 12 entropy, ?_, ?_, ?_⟩ <;>
    simp [set_password, hvalid]

/-- Witness for C8 at a concrete record and password. -/
theorem set_password_success_postcondition_witness :
    (set_password ⟨"alice", "a@b.c", none, true, some "tok", some 5, none, 0, none⟩
        "CorrectHorse9!Battery" "saltsaltsaltsaltsalts." 1000).1.password_reset_token = none ∧
    (bcrypt_hashpw "CorrectHorse9!Battery" 12 "saltsaltsaltsaltsalts.").render ≠
      "CorrectHorse9!Battery" :=
  ⟨(set_password_success_postcondition _ _ _ 1000 (by decide)).2.2.2.2.2.1,
   (set_password_success_postcondition
      ⟨"alice", "a@b.c", none, true, some "tok", some 5, none, 0, none⟩
      "CorrectHorse9!Battery" "saltsaltsaltsaltsalts." 1000 (by decide)).2.2.2.1⟩

/-- C9: `check_password` is a total boolean function (the fallible
`bcrypt.checkpw` call is wrapped): it returns false on empty input, on a
record with no stored hash, and on any verification error; and it returns
true only when re-hashing the supplied password with the stored parameters
reproduces the stored secret exactly. -/
theorem check_password_total_spec (u : User) (password : String) :
    (password = "" → check_password u password = false) ∧
    (u.hashed_password = none → check_password u password = false) ∧
    (∀ h msg, u.hashed_password = some h → bcrypt_checkpw password h = .error msg →
      check_password u password = false) ∧
    (check_password u password = true →
      ∃ h, u.hashed_password = some h ∧ bcrypt_hashpw password h.cost h.salt = h) := by
  refine ⟨fun hp => by simp [check_password, hp], fun hn => by simp [check_password, hn],
    fun h msg hh herr => ?_, fun htrue => ?_⟩
  · by_cases hp : password = ""
    · simp [check_password, hp]
    · simp [check_password, hp, hh, herr]
  · by_cases hp : password = ""
    · simp [check_password, hp] at htrue
    · cases hh : u.hashed_password with
      | none => simp [check_password, hp, hh] at htrue
      | some h =>
        refine ⟨h, rfl, ?_⟩
        simp only [check_password, hp, if_false, hh] at htrue
        cases hck : bcrypt_checkpw password h with
        | error e => rw [hck] at htrue; simp at htrue
        | ok b =>
          rw [hck] at htrue
          simp at htrue
          subst htrue
          unfold bcrypt_checkpw at hck
          by_cases hv : h.version = "$2b$"
          · rw [if_pos hv] at hck
            simpa using hck
          · rw [if_neg hv] at hck
            simp at hck

/-- Witness for C9's hypotheses: the empty password and a verification
error both yield false on a concrete record, and a true result exposes the
matching stored hash. -/
theorem check_password_total_spec_witness :
    check_password ⟨"alice", "a@b.c", some ⟨"$2b$", 12, "s", "pw"⟩, true,
        none, none, none, 0, none⟩ "" = false ∧
    check_password ⟨"alice", "a@b.c", some ⟨"bad", 12, "s", "pw"⟩, true,
        none, none, none, 0, none⟩ "pw" = false :=
  ⟨(check_password_total_spec _ "").1 rfl,
   (check_password_total_spec
      ⟨"alice", "a@b.c", some ⟨"bad", 12, "s", "pw"⟩, true, none, none, none, 0, none⟩
      "pw").2.2.1 ⟨"bad", 12, "s", "pw"⟩ "Invalid salt" rfl rfl⟩

/-! ## Token service — src/api/security.py

PyJWT is modelled at its contract level: a token is either a signed pair
of claim set and signature or an opaque malformed string; `jwt.encode`
signs with a symbolic HMAC (an injective constructor over secret and
claims, standing for the keyed digest), and `jwt.decode` checks the
signature first and then the `exp` claim, raising `ExpiredSignatureError`
or `InvalidTokenError` exactly as PyJWT does (`exp <= now` is expired,
with zero leeway). Timestamps are Unix seconds. -/

structure JwtClaims where
  sub : String
  exp : Nat
deriving DecidableEq, Repr

/-- The keyed digest over the claim set; only equality of signatures is
ever observed, so it is modelled by the signing inputs themselves. -/
structure JwtSig where
  secret : String
  signed : JwtClaims
deriving DecidableEq, Repr

def hmacSign (secret : String) (claims : JwtClaims) : JwtSig := ⟨secret, claims⟩

inductive JwtToken where
  | signed (claims : JwtClaims) (sig : JwtSig)
  | malformed (raw : String)
deriving DecidableEq, Repr

inductive JwtError where
  | ExpiredSignature
  | InvalidToken
deriving DecidableEq, Repr

def jwt_encode (claims : JwtClaims) (secret : String) : JwtToken :=
  .signed claims (hmacSign secret claims)

def jwt_decode (token : JwtToken) (secret : String) (now : Nat) :
    Except JwtError JwtClaims :=
  match token with
  | .malformed _ => .error .InvalidToken
  | .signed claims sig =>
    if sig ≠ hmacSign secret claims then .error .InvalidToken
    else if claims.exp ≤ now then .error .ExpiredSignature
    else .ok claims

/-- `ACCESS_TOKEN_EXPIRE_MINUTES` (config default used by
`create_access_token` when no delta is passed). -/
def ACCESS_TOKEN_EXPIRE_MINUTES : Nat := 30

/-- `create_access_token(data, expires_delta)` from src/api/security.py:
the claim set is the caller's data (`{"sub": subject}` at the call site in
src/api/routes/auth.py) extended with `exp = now + delta`, defaulting to
`ACCESS_TOKEN_EXPIRE_MINUTES`; the result is signed with the configured
secret. `expires_delta` is in seconds. -/
def create_access_token (sub : String) (now : Nat) (expires_delta : Option Nat)
    (secret : String) : JwtToken :=
  let expire :=
    match expires_delta with
    | some d => now + d
    | none => now + ACCESS_TOKEN_EXPIRE_MINUTES * 60
  jwt_encode ⟨sub, expire⟩ secret

/-- The verification stage of `token_required`: decode the token and
extract the `sub` claim (`payload['sub']`). -/
def verify (token : JwtToken) (secret : String) (now : Nat) :
    Except JwtError String :=
  (jwt_decode token secret now).map JwtClaims.sub

/-- Outcome of the `token_required` wrapper: either the request proceeds
with the resolved current user, or a 401 response with the given message
is returned. -/
inductive AuthOutcome where
  | authorized (user : User)
  | unauthorized (message : String)
deriving DecidableEq, Repr

/-- `token_required` from src/api/security.py: missing header token,
decode errors, and an unknown subject each yield a 401; otherwise the user
whose username equals the `sub` claim becomes `g.current_user`. `users`
models the rows of the users table queried by
`User.query.filter_by(username=payload['sub']).first()`. -/
def token_required (token : Option JwtToken) (secret : String) (now : Nat)
    (users : List User) : AuthOutcome :=
  match token with
  | none => .unauthorized "Token is missing"
  | some t =>
    match jwt_decode t secret now with
    | .error .ExpiredSignature => .unauthorized "Token has expired"
    | .error .InvalidToken => .unauthorized "Invalid token"
    | .ok payload =>
      match users.find? (fun u => u.username == payload.sub) with
      | none => .unauthorized "Invalid token"
      | some u => .authorized u

/-! ## Token theorems -/

/-- C1: a token issued for `subject` with positive lifetime verifies to
exactly `subject` at any instant before its expiry. -/
theorem verify_issue_roundtrip (subject secret : String) (lifetime now t : Nat)
    (hpos : 0 < lifetime) (hfresh : t < now + lifetime) :
    verify (create_access_token subject now (some lifetime) secret) secret t =
      .ok subject := by
  simp [verify, create_access_token, jwt_encode, jwt_decode, Nat.not_le.2 hfresh,
    Except.map]

/-- Witness for C1 at subject "alice", lifetime 1800 s, checked 60 s after
issuance. -/
theorem verify_issue_roundtrip_witness :
    verify (create_access_token "alice" 1000 (some 1800) "secret") "secret" 1060 =
      .ok "alice" :=
  verify_issue_roundtrip "alice" "secret" 1800 1000 1060 (by decide) (by decide)

/-- C6: decoding fails with `InvalidToken` on a malformed token or a
signature that does not verify, fails with `ExpiredSignature` on a
correctly signed token whose expiry has passed, and otherwise returns the
subject claim. -/
theorem verify_error_taxonomy :
    (∀ raw secret now, jwt_decode (.malformed raw) secret now = .error .InvalidToken) ∧
    (∀ claims sig secret now, sig ≠ hmacSign secret claims →
      jwt_decode (.signed claims sig) secret now = .error .InvalidToken) ∧
    (∀ claims secret now, claims.exp ≤ now →
      jwt_decode (.signed claims (hmacSign secret claims)) secret now =
        .error .ExpiredSignature) ∧
    (∀ claims secret now, now < claims.exp →
      verify (.signed claims (hmacSign secret claims)) secret now = .ok claims.sub) := by
  refine ⟨fun raw secret now => rfl, fun claims sig secret now hsig => ?_,
    fun claims secret now hexp => ?_, fun claims secret now hfresh => ?_⟩
  · simp [jwt_decode, hsig]
  · simp [jwt_decode, hexp]
  · simp [verify, jwt_decode, Nat.not_le.2 hfresh, Except.map]

/-- Witness for C6: a forged signature is rejected as invalid and an
expired well-signed token as expired, at concrete claims. -/
theorem verify_error_taxonomy_witness :
    jwt_decode (.signed ⟨"alice", 100⟩ (hmacSign "other" ⟨"alice", 100⟩)) "secret" 50 =
      .error .InvalidToken ∧
    jwt_decode (.signed ⟨"alice", 100⟩ (hmacSign "secret" ⟨"alice", 100⟩)) "secret" 100 =
      .error .ExpiredSignature :=
  ⟨verify_error_taxonomy.2.1 ⟨"alice", 100⟩ (hmacSign "other" ⟨"alice", 100⟩)
      "secret" 50 (by decide),
   verify_error_taxonomy.2.2.1 ⟨"alice", 100⟩ "secret" 100 (by decide)⟩

/-- C10: token verification is not stateless — a correctly signed,
unexpired token is still answered with the 401 message "Invalid token"
when no user row carries the token's subject as username. -/
theorem token_required_needs_user_row (subject secret : String)
    (lifetime now t : Nat) (users : List User)
    (hfresh : t < now + lifetime)
    (habsent : ∀ u ∈ users, u.username ≠ subject) :
    token_required (some (create_access_token subject now (some lifetime) secret))
        secret t users = .unauthorized "Invalid token" := by
  have hdecode : jwt_decode (create_access_token subject now (some lifetime) secret)
      secret t = .ok ⟨subject, now + lifetime⟩ := by
    simp [create_access_token, jwt_encode, jwt_decode, Nat.not_le.2 hfresh]
  have hfind : users.find? (fun u => u.username == subject) = none := by
    rw [List.find?_eq_none]
    intro u hu
    simp [habsent u hu]
  simp [token_required, hdecode, hfind]

/-- Witness for C10: a fresh token for the never-registered subject
"ghost" is refused against a one-row users table. -/
theorem token_required_needs_user_row_witness :
    token_required (some (create_access_token "ghost" 1000 (some 1800) "secret"))
        "secret" 1060
        [⟨"alice", "a@b.c", none, true, none, none, none, 0, none⟩] =
      .unauthorized "Invalid token" :=
  token_required_needs_user_row "ghost" "secret" 1800 1000 1060 _ (by decide)
    (by intro u hu; simp at hu; simp [hu])

/-! ## Entity registration guard -/

/-- Modelled from the spec: the body of `ModelRegistry` is missing from
src/ — src/api/models/user.py only applies `@ModelRegistry.register('User')`
and src/api/models/import_all_models only tracks imported modules. Per the
spec, `register(name, definition)` stores `definition` under `name` when
the name is unseen and returns it; when the name was already registered it
ignores the new definition and returns the previously stored one. The
registry is the process-wide name-to-definition table, threaded
explicitly. -/
def ModelRegistry.register {α : Type} (reg : List (String × α)) (name : String)
    (defn : α) : List (String × α) × α :=
  match reg.find? (fun p => p.1 == name) with
  | some p => (reg, p.2)
  | none => (reg ++ [(name, defn)], defn)

/-- C5: from a state where `name` is unseen, registering `defA` twice
returns `defA` both times and leaves the registry unchanged the second
time, and registering a different `defB` afterwards still returns
`defA`. -/
theorem register_idempotent_first_wins {α : Type} (reg : List (String × α))
    (name : String) (defA defB : α)
    (hnew : reg.find? (fun p => p.1 == name) = none) :
    (ModelRegistry.register reg name defA).2 = defA ∧
    (ModelRegistry.register (ModelRegistry.register reg name defA).1 name defA).2
      = defA ∧
    (ModelRegistry.register (ModelRegistry.register reg name defA).1 name defA).1
      = (ModelRegistry.register reg name defA).1 ∧
    (ModelRegistry.register (ModelRegistry.register reg name defA).1 name defB).2
      = defA := by
  have h1 : ModelRegistry.register reg name defA = (reg ++ [(name, defA)], defA) := by
    simp [ModelRegistry.register, hnew]
  have hfind : (reg ++ [(name, defA)]).find? (fun p => p.1 == name)
      = some (name, defA) := by
    simp [List.find?_append, hnew]
  rw [h1]
  refine ⟨rfl, ?_, ?_, ?_⟩ <;> simp [ModelRegistry.register, hfind]

/-- Witness for C5 starting from the empty registry. -/
theorem register_idempotent_first_wins_witness :
    (ModelRegistry.register ([] : List (String × Nat)) "User" 1).2 = 1 ∧
    (ModelRegistry.register
      (ModelRegistry.register ([] : List (String × Nat)) "User" 1).1 "User" 2).2 = 1 :=
  ⟨(register_idempotent_first_wins [] "User" 1 2 rfl).1,
   (register_idempotent_first_wins [] "User" 1 2 rfl).2.2.2⟩

/-! ## Rate-limit backend selection — src/api/utils/redis_fix.py and the
limiter block of create_app in src/api/__init__.py

The network is modelled by an explicit outcome function: `probe url` is
the combined result of `redis.from_url(url, ...)` followed by
`client.ping()`, with `redisError` for a raised `redis.RedisError` and
`otherError` for any other exception. A connected client is identified by
the URL it connected to. The second component of each result collects the
warning/error log lines. -/

inductive ProbeOutcome where
  | connected
  | redisError (msg : String)
  | otherError (msg : String)
deriving DecidableEq, Repr

/-- The try/except body of `get_redis_client`: create the client, ping it,
and catch every exception into a `none` return. -/
def redis_probe (url : String) (probe : String → ProbeOutcome) :
    Option String × List String :=
  match probe url with
  | .connected => (some url, [])
  | .redisError m => (none, ["Redis connection error: " ++ m])
  | .otherError m => (none, ["Unexpected error connecting to Redis: " ++ m])

/-- `get_redis_client(redis_url)` from src/api/utils/redis_fix.py: a `None`
argument falls back to the REDIS_URL environment variable, whose absence
is reported (not raised) as a warning and a `None` client. -/
def get_redis_client (redis_url : Option String) (envRedisUrl : Option String)
    (probe : String → ProbeOutcome) : Option String × List String :=
  match redis_url with
  | none =>
    match envRedisUrl with
    | none => (none, ["No REDIS_URL found in environment"])
    | some url => redis_probe url probe
  | some url => redis_probe url probe

/-- Outcome of `RedisStorage(...)` construction, distinguishing the
`TypeError` the source retries on from any other exception. -/
inductive StorageInit where
  | ok
  | typeError (msg : String)
  | otherError (msg : String)
deriving DecidableEq, Repr

inductive LimiterBackend where
  | distributedStore (url : String)
  | inProcess
deriving DecidableEq, Repr

/-- The environment-dependent inputs of the limiter block of `create_app`:
the REDIS_URL environment variable, the probe behaviour per URL, whether
`get_redis_storage()` found a RedisStorage class, and how constructing it
from a client and from a URL behaves. -/
structure StartupEnv where
  envRedisUrl : Option String
  probe : String → ProbeOutcome
  storageClassFound : Bool
  initWithClient : StorageInit
  initWithUrl : StorageInit

def inMemoryWarning : String :=
  "Using in-memory storage for rate limiting. NOT RECOMMENDED FOR PRODUCTION."

/-- The limiter-initialization block of `create_app`
(src/api/__init__.py): `redis_url = os.environ.get('REDIS_URL',
'redis://localhost:6379/0')` is probed through `get_redis_client`; with a
client in hand the RedisStorage class is constructed, retrying with the
URL on `TypeError` (any other exception escapes to the outer handler,
which logs and keeps no storage); the limiter is wired to the distributed
storage when one was built and otherwise to the default in-process
storage with a warning. -/
def select_rate_limit_backend (env : StartupEnv) : LimiterBackend × List String :=
  let redis_url := env.envRedisUrl.getD "redis://localhost:6379/0"
  let probed := get_redis_client (some redis_url) env.envRedisUrl env.probe
  match probed.1 with
  | none =>
    (.inProcess, probed.2 ++ ["Could not connect to Redis", inMemoryWarning])
  | some _ =>
    if env.storageClassFound then
      match env.initWithClient with
      | .ok => (.distributedStore redis_url, probed.2)
      | .typeError m =>
        match env.initWithUrl with
        | .ok => (.distributedStore redis_url,
            probed.2 ++ ["Redis storage initialization error: " ++ m])
        | .typeError m2 => (.inProcess,
            probed.2 ++ ["Redis storage initialization error: " ++ m,
              "Failed to initialize Redis storage with URL: " ++ m2, inMemoryWarning])
        | .otherError m2 => (.inProcess,
            probed.2 ++ ["Redis storage initialization error: " ++ m,
              "Failed to initialize Redis storage with URL: " ++ m2, inMemoryWarning])
      | .otherError m => (.inProcess, probed.2 ++
          ["Could not initialize Redis storage for rate limiting: " ++ m,
           "Falling back to in-memory storage (not recommended for production)",
           inMemoryWarning])
    else (.inProcess, probed.2 ++ [inMemoryWarning])

/-- C4 counterexample: with REDIS_URL absent from the environment but a
distributed store answering at the substituted default target
redis://localhost:6379/0, startup selects the distributed backend — so
absence of the distributed-store target does not deterministically select
the local fallback. -/
theorem redis_absence_not_deterministic :
    (StartupEnv.mk none (fun _ => .connected) true .ok .ok).envRedisUrl = none ∧
    (select_rate_limit_backend
        (StartupEnv.mk none (fun _ => .connected) true .ok .ok)).1 =
      .distributedStore "redis://localhost:6379/0" :=
  ⟨rfl, rfl⟩

/-- C4 (amended): whenever client construction or the liveness ping fails,
or every storage-construction attempt fails, startup lands in the
in-process fallback and the degraded-mode warning is logged; the probe
maps every raised error to a normal `None` return; `get_redis_client`
called with no URL and no REDIS_URL in the environment deterministically
reports no client; and the distributed backend is only ever selected after
a successful probe — when REDIS_URL is absent, the probed target is the
substituted default "redis://localhost:6379/0". -/
theorem rate_limit_backend_fallback (env : StartupEnv) :
    (env.probe (env.envRedisUrl.getD "redis://localhost:6379/0") ≠ .connected →
      (select_rate_limit_backend env).1 = .inProcess ∧
      inMemoryWarning ∈ (select_rate_limit_backend env).2) ∧
    (env.initWithClient ≠ .ok → env.initWithUrl ≠ .ok →
      (select_rate_limit_backend env).1 = .inProcess ∧
      inMemoryWarning ∈ (select_rate_limit_backend env).2) ∧
    (∀ url m, env.probe url = .redisError m →
      get_redis_client (some url) env.envRedisUrl env.probe =
        (none, ["Redis connection error: " ++ m])) ∧
    (∀ url m, env.probe url = .otherError m →
      get_redis_client (some url) env.envRedisUrl env.probe =
        (none, ["Unexpected error connecting to Redis: " ++ m])) ∧
    (get_redis_client none none env.probe =
      (none, ["No REDIS_URL found in environment"])) ∧
    (∀ url, (select_rate_limit_backend env).1 = .distributedStore url →
      url = env.envRedisUrl.getD "redis://localhost:6379/0" ∧
      env.probe url = .connected) := by
  obtain ⟨e, probe, scf, iwc, iwu⟩ := env
  refine ⟨?_, ?_, ?_, ?_, ?_, ?_⟩
  · intro hp
    cases hpr : probe (e.getD "redis://localhost:6379/0") with
    | connected => exact absurd hpr hp
    | redisError m =>
      cases scf <;>
        simp [select_rate_limit_backend, get_redis_client, redis_probe, hpr]
    | otherError m =>
      cases scf <;>
        simp [select_rate_limit_backend, get_redis_client, redis_probe, hpr]
  · intro hc hu
    cases hpr : probe (e.getD "redis://localhost:6379/0") with
    | connected =>
      cases scf <;> cases iwc <;> cases iwu <;>
        simp_all [select_rate_limit_backend, get_redis_client, redis_probe, hpr]
    | redisError m =>
      cases scf <;>
        simp [select_rate_limit_backend, get_redis_client, redis_probe, hpr]
    | otherError m =>
      cases scf <;>
        simp [select_rate_limit_backend, get_redis_client, redis_probe, hpr]
  · intro url m hpr
    have hpr2 : probe url = .redisError m := hpr
    simp [get_redis_client, redis_probe, hpr2]
  · intro url m hpr
    have hpr2 : probe url = .otherError m := hpr
    simp [get_redis_client, redis_probe, hpr2]
  · rfl
  · intro url hsel
    cases hpr : probe (e.getD "redis://localhost:6379/0") with
    | connected =>
      cases scf <;> cases iwc <;> cases iwu <;>
        simp_all [select_rate_limit_backend, get_redis_client, redis_probe, hpr]
    | redisError m =>
      cases scf <;>
        simp_all [select_rate_limit_backend, get_redis_client, redis_probe, hpr]
    | otherError m =>
      cases scf <;>
        simp_all [select_rate_limit_backend, get_redis_client, redis_probe, hpr]

/-- Witness for C4's hypotheses: a failing ping at a configured target
selects the in-process fallback with the degraded-mode warning, and the
missing-environment path reports no client. -/
theorem rate_limit_backend_fallback_witness :
    (select_rate_limit_backend
        (StartupEnv.mk (some "redis://h:6379/0") (fun _ => .redisError "down")
          true .ok .ok)).1 = .inProcess ∧
    inMemoryWarning ∈ (select_rate_limit_backend
        (StartupEnv.mk (some "redis://h:6379/0") (fun _ => .redisError "down")
          true .ok .ok)).2 :=
  (rate_limit_backend_fallback
      (StartupEnv.mk (some "redis://h:6379/0") (fun _ => .redisError "down")
        true .ok .ok)).1 (by decide)

end MedTrans
